import Mathlib

/-!
Verification of the BTK management system's data-access core
(`DataManager`) and view router (`Router`) from `src/script.js`,
shallowly embedded in Lean 4.

JSON values are modelled by the inductive `Json` (numbers as integers,
which suffices for the properties at stake).  JavaScript truthiness of a
value, which `DataManager.load` uses for its cache test
(`if (this.cache[fileName])`), is modelled by `Json.truthy`.  The remote
`fetch` + `response.json()` step of `load` is an external effect; it is
passed to the embedded `load` as an oracle `fetched : Option Json`
(`none` = HTTP failure or parse error, `some v` = successfully parsed
body `v`).  `localStorage` is modelled as an association list from keys
to serialized strings.
-/

/-- A JavaScript value reachable through the data paths at stake.
Numbers are modelled as integers.  `fn k` is not JSON: it stands for the
value inherited from `Object.prototype` under key `k` when a property
read on a plain object misses every own key — a built-in function such
as `Object.prototype.toString` (for `"__proto__"`, the prototype object
itself).  All such inherited values are truthy. -/
inductive Json where
  | null : Json
  | bool : Bool → Json
  | num : Int → Json
  | str : String → Json
  | arr : List Json → Json
  | obj : List (String × Json) → Json
  | fn : String → Json

/-- JavaScript truthiness: `null`, `false`, `0` and the empty string are
falsy; every array, object (even empty) and function is truthy. -/
def Json.truthy : Json → Bool
  | .null => false
  | .bool b => b
  | .num n => n ≠ 0
  | .str s => s ≠ ""
  | .arr _ => true
  | .obj _ => true
  | .fn _ => true

/-- One character of `JSON.stringify` string escaping (quote, backslash
and the common control characters; other characters pass through). -/
def escapeChar (c : Char) : String :=
  if c.toNat = 34 then "\\\""
  else if c.toNat = 92 then "\\\\"
  else if c.toNat = 10 then "\\n"
  else if c.toNat = 13 then "\\r"
  else if c.toNat = 9 then "\\t"
  else String.singleton c

/-- `JSON.stringify` escaping of a whole string. -/
def escapeString (s : String) : String :=
  String.join (s.toList.map escapeChar)

mutual
/-- `JSON.stringify` on the `Json` model.  `JSON.stringify` of a
function is the JavaScript value `undefined`, which
`localStorage.setItem` then coerces to the string `"undefined"`; the
`fn` case models the value at that boundary. -/
def Json.stringify : Json → String
  | .null => "null"
  | .bool true => "true"
  | .bool false => "false"
  | .num n => toString n
  | .str s => "\"" ++ escapeString s ++ "\""
  | .arr xs => "[" ++ stringifyList xs ++ "]"
  | .obj fs => "\x7b" ++ stringifyFields fs ++ "\x7d"
  | .fn _ => "undefined"

/-- Comma-separated serialization of array elements. -/
def stringifyList : List Json → String
  | [] => ""
  | [x] => Json.stringify x
  | x :: y :: rest => Json.stringify x ++ "," ++ stringifyList (y :: rest)

/-- Comma-separated serialization of object fields. -/
def stringifyFields : List (String × Json) → String
  | [] => ""
  | [(k, v)] => "\"" ++ escapeString k ++ "\":" ++ Json.stringify v
  | (k, v) :: p :: rest =>
      "\"" ++ escapeString k ++ "\":" ++ Json.stringify v ++ "," ++
        stringifyFields (p :: rest)
end

/-- The property keys every plain JavaScript object (`{}` literal)
inherits from `Object.prototype`.  A property read on a plain object
with any of these keys and no shadowing own property yields a truthy
value (a built-in function; for `__proto__`, the prototype object). -/
def protoNames : List String :=
  ["constructor", "hasOwnProperty", "isPrototypeOf",
   "propertyIsEnumerable", "toLocaleString", "toString", "valueOf",
   "__defineGetter__", "__defineSetter__", "__lookupGetter__",
   "__lookupSetter__", "__proto__"]

/-- The member a plain object inherits from `Object.prototype` under
key `k`, if any. -/
def objectProtoMember (k : String) : Option Json :=
  if k ∈ protoNames then some (.fn k) else none

/-- JavaScript property read `o[k]` on a plain object whose own
properties are `own`: an own property (which shadows the prototype)
wins; otherwise the lookup walks up to `Object.prototype`; `none`
models `undefined`. -/
def jsGet (own : List (String × Json)) (k : String) : Option Json :=
  match own.lookup k with
  | some v => some v
  | none => objectProtoMember k

namespace DataManager

/-- State of a `DataManager` instance together with the browser's
`localStorage`: `cache` is the in-memory per-document cache
(`this.cache`), `localStore` the durable key-value store.  Both are
association lists where the most recent binding for a key comes first. -/
structure State where
  cache : List (String × Json)
  localStore : List (String × String)

/-- Update (or create) the binding of `k` in an association list;
the new binding shadows any earlier one, as `List.lookup` returns the
first match. -/
def setKey {α : Type} (l : List (String × α)) (k : String) (v : α) :
    List (String × α) :=
  (k, v) :: l

/-- The own entries of the `defaults` object literal in
`DataManager.getDefaultData` (`src/script.js:85-91`). -/
def defaultsTable : List (String × Json) :=
  [("dashboard.json",
    .obj [("tasks", .arr []), ("reviews", .arr []),
          ("writingProgress", .obj []), ("knowledgeSummary", .obj [])]),
   ("documents.json", .obj [("documents", .arr [])]),
   ("knowledge.json", .obj [("items", .arr [])]),
   ("writing_projects.json", .obj [("projects", .arr [])]),
   ("tasks.json",
    .obj [("tasks", .arr []), ("reviews", .arr []),
          ("metrics", .obj [])])]

/-- `DataManager.getDefaultData` from `src/script.js:84-93`:
`return defaults[fileName] || {}`.  The subscript read inherits from
`Object.prototype`, so a name such as `"constructor"` yields the truthy
inherited member (which `|| {}` keeps); only a name that misses both
the table's own keys and the prototype yields `{}`. -/
def getDefaultData (fileName : String) : Json :=
  match jsGet defaultsTable fileName with
  | some v => if v.truthy then v else .obj []
  | none => .obj []

/-- `DataManager.load` from `src/script.js:58-73`.  `fetched` stands for
the outcome of `fetch` + `response.json()`; the returned `Bool` records
whether a retrieval (the fetch attempt) was performed.  The JavaScript
cache test `if (this.cache[fileName])` is a truthiness test on a
prototype-chain property read: a key absent from both the own entries
and `Object.prototype` yields `undefined` (falsy), a present own falsy
value also fails it, and a name colliding with an `Object.prototype`
member (e.g. `"toString"` on the fresh `{}` cache) hits that truthy
inherited value and is returned with no retrieval.  On fetch success
the parsed value is cached; on failure the default is returned WITHOUT
being cached (the `catch` branch does not write to `this.cache`). -/
def load (st : State) (fileName : String) (fetched : Option Json) :
    Json × State × Bool :=
  match jsGet st.cache fileName with
  | some v =>
      if v.truthy then (v, st, false)
      else
        match fetched with
        | some data =>
            (data, { st with cache := setKey st.cache fileName data }, true)
        | none => (getDefaultData fileName, st, true)
  | none =>
      match fetched with
      | some data =>
          (data, { st with cache := setKey st.cache fileName data }, true)
      | none => (getDefaultData fileName, st, true)

/-- `DataManager.save` from `src/script.js:75-82`: overwrite the cache
entry, persist the serialized value to `localStorage` under the
namespaced key `btk_<fileName>`, return `true`. -/
def save (st : State) (fileName : String) (data : Json) : Bool × State :=
  (true,
   { cache := setKey st.cache fileName data,
     localStore :=
       setKey st.localStore ("btk_" ++ fileName) data.stringify })

/-- The cache clear performed by `DashboardModule.refresh`
(`src/script.js:272`, `this.dm.cache = {}`); the spec calls it
`clearCache()`. -/
def clearCache (st : State) : State :=
  { st with cache := [] }

end DataManager

namespace Router

/-- A registered view module, identified opaquely; the router only uses
its `render()` capability, which we observe as a `RenderAction` event.
Registered modules are objects, hence truthy. -/
abbrev Module := Nat

/-- Router state from `src/script.js:111-121`: the current-view pointer
(`this.currentView`, `null` before first navigation) and the module
registry (`this.modules`). -/
structure State where
  currentView : Option String
  modules : List (String × Module)

/-- Observable effect of one `navigate` call: either the registered
module's `render()` was invoked, or the constant "module not found"
placeholder HTML was written to the app container. -/
inductive RenderAction where
  | rendered : Module → RenderAction
  | placeholder : RenderAction
deriving DecidableEq, Repr

/-- `Router.registerModule` from `src/script.js:119-121`:
`this.modules[name] = module` (the last registration wins; the newest
binding shadows older ones). -/
def registerModule (st : State) (name : String) (m : Module) : State :=
  { st with modules := DataManager.setKey st.modules name m }

/-- The registry read `this.modules[viewName]`: an own (registered)
entry wins; otherwise, `this.modules = {}` inherits `Object.prototype`,
so a view name colliding with a prototype member (e.g. `"constructor"`)
yields that truthy built-in function (`Sum.inr`), which passes the
`if (module)` test but has no `render` method; only a name missing from
both gives `undefined` (`none`). -/
def lookupModule (own : List (String × Module)) (k : String) :
    Option (Module ⊕ String) :=
  match own.lookup k with
  | some m => some (Sum.inl m)
  | none => if k ∈ protoNames then some (Sum.inr k) else none

/-- Outcome of one `navigate` call: the renders it performed, or a
thrown `TypeError` (`module.render is not a function`) when the truthy
value found in the registry has no render capability. -/
inductive NavOutcome where
  | ok : List RenderAction → NavOutcome
  | threw : NavOutcome
deriving DecidableEq, Repr

/-- `Router.navigate` from `src/script.js:137-149`: set
`this.currentView = viewName` (this happens before the registry read,
so it persists even when the call then throws); if the registry read
yields a registered module, invoke its render; if it yields a truthy
inherited `Object.prototype` member, `module.render()` throws
`TypeError`; only when it yields `undefined` is the placeholder HTML
written. -/
def navigate (st : State) (viewName : String) : State × NavOutcome :=
  let st1 : State := { st with currentView := some viewName }
  match lookupModule st1.modules viewName with
  | some (Sum.inl m) => (st1, .ok [RenderAction.rendered m])
  | some (Sum.inr _) => (st1, .threw)
  | none => (st1, .ok [RenderAction.placeholder])

end Router

/-- A call into the document store observed from a UI module: `load n`
is `this.dm.load(n)`, `save n` is `this.dm.save(n, …)`. -/
inductive StoreOp where
  | load : String → StoreOp
  | save : String → StoreOp
deriving DecidableEq, Repr

/-- JavaScript property read `v.k`: `some` the field value on an object
that has it, otherwise `none` (modelling `undefined`). -/
def Json.getField (v : Json) (k : String) : Option Json :=
  match v with
  | .obj fs => fs.lookup k
  | _ => none

/-- JavaScript property write on an object's field list: overwrite in
place if the key exists (insertion order preserved), else append. -/
def setField : List (String × Json) → String → Json → List (String × Json)
  | [], k, v => [(k, v)]
  | (k', v') :: rest, k, v =>
      if k' = k then (k, v) :: rest else (k', v') :: setField rest k v

/-- `t.status === 'completed'` on a task object (false when the field is
absent or not a string, as strict equality is). -/
def isCompleted (t : Json) : Bool :=
  match t.getField "status" with
  | some (.str s) => s = "completed"
  | _ => false

/-- `i.id === itemId` on a knowledge item (strict equality against the
string `iid`; false when the field is absent or not a string). -/
def hasId (iid : String) (i : Json) : Bool :=
  match i.getField "id" with
  | some (.str s) => s = iid
  | _ => false

/-- Update the first list element satisfying `p` (the element
`Array.prototype.find` returns, mutated in place). -/
def updateFirst (p : Json → Bool) (f : Json → Json) : List Json → List Json
  | [] => []
  | x :: xs => if p x then f x :: xs else x :: updateFirst p f xs

/-- Result of one form-save handler run: the store/localStorage state
afterwards, the trace of document-store calls it made, and whether the
synchronous `alert` validation branch fired.  `none` models an
exception thrown while mutating a loaded document of unexpected shape
(e.g. `data.tasks.push` when `data.tasks` is not an array). -/
abbrev HandlerResult := Option (DataManager.State × List StoreOp × Bool)

namespace ManagementModule

/-- `ManagementModule.saveTask` from `src/script.js:1571-1598`.  Form
field values are parameters (`title` etc.); `!title` on a string is true
exactly for the empty string.  `fetched` is the fetch oracle of the
inner `load`; `newId` and `now` stand for `this.dm.generateId()` and
`this.dm.formatDateTime()`.  The non-guard branch builds the task,
pushes it onto `data.tasks`, recomputes `data.metrics.totalTasks` and
`data.metrics.completedTasks`, and saves. -/
def saveTask (st : DataManager.State) (title description status : String)
    (fetched : Option Json) (newId now : String) : HandlerResult :=
  if title = "" then some (st, [], true)
  else
    let r := DataManager.load st "tasks.json" fetched
    let data := r.1
    let st1 := r.2.1
    let task : Json := .obj [("id", .str newId), ("title", .str title),
      ("description", .str description), ("status", .str status),
      ("createdAt", .str now)]
    match data with
    | .obj fs =>
      match fs.lookup "tasks", fs.lookup "metrics" with
      | some (.arr tasks), some (.obj metrics) =>
          let tasks1 := tasks ++ [task]
          let metrics1 := setField metrics "totalTasks"
            (.num (Int.ofNat tasks1.length))
          let metrics2 := setField metrics1 "completedTasks"
            (.num (Int.ofNat (tasks1.countP isCompleted)))
          let data1 : Json := .obj
            (setField (setField fs "tasks" (.arr tasks1))
              "metrics" (.obj metrics2))
          let st2 := (DataManager.save st1 "tasks.json" data1).2
          some (st2, [StoreOp.load "tasks.json", StoreOp.save "tasks.json"],
            false)
      | _, _ => none
    | _ => none

end ManagementModule

namespace LearningEnvironmentModule

/-- The in-place field updates of an existing knowledge item in
`saveItem`'s edit branch (`src/script.js:944-952`). -/
def updateItem (title ty content summary course unitNumber documentType
    language now : String) (item : Json) : Json :=
  match item with
  | .obj fs => .obj
      (setField (setField (setField (setField (setField (setField
        (setField (setField (setField fs
          "title" (.str title)) "type" (.str ty)) "content" (.str content))
          "summary" (.str summary)) "course" (.str course))
          "unitNumber" (.str unitNumber)) "documentType" (.str documentType))
          "language" (.str language)) "updatedAt" (.str now))
  | _ => item

/-- `LearningEnvironmentModule.saveItem` from `src/script.js:923-978`.
`itemId = none` is the default-argument `null` (create); `some iid` the
edit path, which updates the first item of `data.items` whose `id`
strictly equals `iid` (no-op when none matches, the save still runs). -/
def saveItem (st : DataManager.State) (itemId : Option String)
    (title ty content summary course unitNumber documentType language :
      String) (fetched : Option Json) (newId now : String) : HandlerResult :=
  if title = "" then some (st, [], true)
  else
    let r := DataManager.load st "knowledge.json" fetched
    let data := r.1
    let st1 := r.2.1
    match data with
    | .obj fs =>
      match fs.lookup "items" with
      | some (.arr items) =>
          let items1 :=
            match itemId with
            | some iid =>
                updateFirst (hasId iid)
                  (updateItem title ty content summary course unitNumber
                    documentType language now) items
            | none =>
                items ++ [Json.obj [("id", .str newId), ("title", .str title),
                  ("type", .str ty), ("content", .str content),
                  ("summary", .str summary), ("course", .str course),
                  ("unitNumber", .str unitNumber),
                  ("documentType", .str documentType),
                  ("language", .str language), ("highlights", .num 0),
                  ("notes", .num 0), ("userNotes", .arr []),
                  ("createdAt", .str now)]]
          let data1 : Json := .obj (setField fs "items" (.arr items1))
          let st2 := (DataManager.save st1 "knowledge.json" data1).2
          some (st2,
            [StoreOp.load "knowledge.json", StoreOp.save "knowledge.json"],
            false)
      | _ => none
    | _ => none

end LearningEnvironmentModule

namespace CreativeStudioModule

/-- `CreativeStudioModule.saveNewProject` from `src/script.js:1269-1293`:
guard on empty title, else build the project object, load
`writing_projects.json`, push onto `data.projects`, save. -/
def saveNewProject (st : DataManager.State) (title description : String)
    (fetched : Option Json) (newId now : String) : HandlerResult :=
  if title = "" then some (st, [], true)
  else
    let project : Json := .obj [("id", .str newId), ("title", .str title),
      ("description", .str description), ("parts", .arr []),
      ("wordCount", .num 0), ("createdAt", .str now)]
    let r := DataManager.load st "writing_projects.json" fetched
    let data := r.1
    let st1 := r.2.1
    match data with
    | .obj fs =>
      match fs.lookup "projects" with
      | some (.arr ps) =>
          let data1 : Json := .obj (setField fs "projects" (.arr (ps ++ [project])))
          let st2 := (DataManager.save st1 "writing_projects.json" data1).2
          some (st2, [StoreOp.load "writing_projects.json",
            StoreOp.save "writing_projects.json"], false)
      | _ => none
    | _ => none

end CreativeStudioModule

/-- Bool-valued cache-miss test for `load`: the JavaScript condition
`if (this.cache[fileName])` fails, i.e. the prototype-chain read yields
`undefined` or a falsy own value. -/
def cacheMissB (st : DataManager.State) (fileName : String) : Bool :=
  match jsGet st.cache fileName with
  | none => true
  | some v => !v.truthy

/-- The document names with an explicit entry in the default table. -/
def knownNames : List String :=
  ["dashboard.json", "documents.json", "knowledge.json",
   "writing_projects.json", "tasks.json"]

/-- `getDefaultData` never produces `null`: `defaults[fileName] || {}`
keeps only truthy values (and `null` is falsy), else yields `{}`. -/
theorem getDefaultData_ne_null (fileName : String) :
    DataManager.getDefaultData fileName ≠ Json.null := by
  unfold DataManager.getDefaultData
  cases hj : jsGet DataManager.defaultsTable fileName with
  | none => simp
  | some v =>
      cases hv : v.truthy with
      | false => simp [hv]
      | true =>
          simp [hv]
          rintro rfl
          simp [Json.truthy] at hv

/-- C1 counterexample: the default table is read as
`defaults[fileName] || {}` on a plain object literal, so the "unknown"
name `"constructor"` does NOT yield an empty object: the read finds the
truthy inherited `Object` constructor and returns it.  Reachable in a
run: `save("constructor", null)` makes an own falsy cache entry (cache
miss), and the failed-fetch `load("constructor")` then returns that
inherited function, not `{}`. -/
theorem C1_counterexample :
    DataManager.getDefaultData "constructor" = Json.fn "constructor" ∧
    (DataManager.load
      (DataManager.save ⟨[], []⟩ "constructor" Json.null).2
      "constructor" none).1 = Json.fn "constructor" ∧
    Json.fn "constructor" ≠ Json.obj [] :=
  ⟨rfl, rfl, fun h => Json.noConfusion h⟩

/-- C1 (amended): when the fetch/parse step fails (`fetched = none`)
and the cache does not short-circuit, `load` returns (without raising)
exactly `getDefaultData fileName`, which is never `null`; the default
for `"tasks.json"` is `{tasks: [], reviews: [], metrics: {}}`; a name
outside the default table that does not collide with an
`Object.prototype` property name yields the empty object, while a
colliding name yields that truthy inherited member instead. -/
theorem C1_load_failure_returns_default (st : DataManager.State)
    (fileName : String) (h : cacheMissB st fileName = true) :
    (DataManager.load st fileName none).1 =
      DataManager.getDefaultData fileName ∧
    (DataManager.load st fileName none).1 ≠ Json.null ∧
    DataManager.getDefaultData "tasks.json" =
      Json.obj [("tasks", Json.arr []), ("reviews", Json.arr []),
        ("metrics", Json.obj [])] ∧
    (fileName ∉ knownNames → fileName ∉ protoNames →
      DataManager.getDefaultData fileName = Json.obj []) ∧
    (fileName ∈ protoNames →
      DataManager.getDefaultData fileName = Json.fn fileName) := by
  have hload : (DataManager.load st fileName none).1 =
      DataManager.getDefaultData fileName := by
    unfold DataManager.load
    unfold cacheMissB at h
    cases hl : jsGet st.cache fileName with
    | none => simp [hl]
    | some v =>
        rw [hl] at h
        simp at h
        simp [hl, h]
  refine ⟨hload, ?_, rfl, ?_, ?_⟩
  · rw [hload]; exact getDefaultData_ne_null fileName
  · intro hn hp
    unfold knownNames at hn
    simp at hn
    obtain ⟨h1, h2, h3, h4, h5⟩ := hn
    have e1 : (fileName == "dashboard.json") = false :=
      beq_eq_false_iff_ne.mpr h1
    have e2 : (fileName == "documents.json") = false :=
      beq_eq_false_iff_ne.mpr h2
    have e3 : (fileName == "knowledge.json") = false :=
      beq_eq_false_iff_ne.mpr h3
    have e4 : (fileName == "writing_projects.json") = false :=
      beq_eq_false_iff_ne.mpr h4
    have e5 : (fileName == "tasks.json") = false :=
      beq_eq_false_iff_ne.mpr h5
    unfold DataManager.getDefaultData jsGet objectProtoMember
      DataManager.defaultsTable
    simp [List.lookup, e1, e2, e3, e4, e5, hp]
  · intro hp
    have hp' : fileName = "constructor" ∨ fileName = "hasOwnProperty" ∨
        fileName = "isPrototypeOf" ∨ fileName = "propertyIsEnumerable" ∨
        fileName = "toLocaleString" ∨ fileName = "toString" ∨
        fileName = "valueOf" ∨ fileName = "__defineGetter__" ∨
        fileName = "__defineSetter__" ∨ fileName = "__lookupGetter__" ∨
        fileName = "__lookupSetter__" ∨ fileName = "__proto__" := by
      simpa [protoNames] using hp
    rcases hp' with rfl | rfl | rfl | rfl | rfl | rfl | rfl | rfl | rfl |
      rfl | rfl | rfl <;> rfl

/-- Witness for C1 at the spec's scenario: empty cache, failed fetch of
`"tasks.json"`. -/
theorem C1_witness :
    cacheMissB ⟨[], []⟩ "tasks.json" = true ∧
    (DataManager.load ⟨[], []⟩ "tasks.json" none).1 =
      Json.obj [("tasks", Json.arr []), ("reviews", Json.arr []),
        ("metrics", Json.obj [])] :=
  ⟨rfl, by
    have h := C1_load_failure_returns_default ⟨[], []⟩ "tasks.json" rfl
    exact h.1.trans h.2.2.1⟩

/-- C3 counterexample: with an empty cache and a failing fetch, the
first `load("tasks.json")` performs a retrieval, does NOT cache the
default it returns, and the immediately following `load("tasks.json")`
performs a second retrieval — two in total, not at most one. -/
theorem C3_counterexample :
    (DataManager.load ⟨[], []⟩ "tasks.json" none).2.2 = true ∧
    (DataManager.load (DataManager.load ⟨[], []⟩ "tasks.json" none).2.1
      "tasks.json" none).2.2 = true :=
  ⟨rfl, rfl⟩

/-- C3 (amended): if the first `load`'s retrieval succeeds with a truthy
value (any JSON object), the second `load` for the same name is a cache
hit: it performs no retrieval and returns the first call's result.  This
also covers a truthy cache hit on the first call.  (When the first
retrieval fails, the default is not cached and the second call fetches
again — see the counterexample.) -/
theorem C3_second_load_no_retrieval (st : DataManager.State)
    (fileName : String) (v : Json) (hv : v.truthy = true)
    (f2 : Option Json) :
    DataManager.load (DataManager.load st fileName (some v)).2.1 fileName f2
      = ((DataManager.load st fileName (some v)).1,
         (DataManager.load st fileName (some v)).2.1, false) := by
  unfold DataManager.load DataManager.setKey
  cases hl : jsGet st.cache fileName with
  | none => simp [hl, jsGet, List.lookup, hv]
  | some w =>
      cases hw : w.truthy with
      | true => simp [hl, hw]
      | false => simp [hl, hw, jsGet, List.lookup, hv]

/-- Witness for C3 (amended): first load fetches `{}` successfully, the
second load is a cache hit. -/
theorem C3_second_load_witness :
    Json.truthy (Json.obj []) = true ∧
    DataManager.load (DataManager.load ⟨[], []⟩ "tasks.json"
        (some (Json.obj []))).2.1 "tasks.json" none
      = (Json.obj [], (DataManager.load ⟨[], []⟩ "tasks.json"
          (some (Json.obj []))).2.1, false) := by
  refine ⟨rfl, ?_⟩
  rw [C3_second_load_no_retrieval ⟨[], []⟩ "tasks.json" (Json.obj []) rfl none]
  rfl

/-- C4 counterexample: after the cache clear (`this.dm.cache = {}`),
`load("toString")` does NOT perform a fresh retrieval even though a
cache entry for `"toString"` existed before the clear: the truthiness
test on the fresh `{}` finds the truthy inherited
`Object.prototype.toString` and returns it with no retrieval. -/
theorem C4_counterexample :
    (DataManager.load (DataManager.clearCache
        ⟨[("toString", Json.obj [("x", Json.num 1)])], []⟩)
      "toString" none).2.2 = false ∧
    (DataManager.load (DataManager.clearCache
        ⟨[("toString", Json.obj [("x", Json.num 1)])], []⟩)
      "toString" none).1 = Json.fn "toString" :=
  ⟨rfl, rfl⟩

/-- C4 (amended): for every document name that does not collide with an
`Object.prototype` property name, `load` after the cache clear
performed by `refresh` misses the cache and performs a fresh retrieval
— even if an entry existed before — returning the fetched value on
success and the default on failure.  (A colliding name such as
`"toString"` instead hits the truthy inherited member with no
retrieval — see the counterexample.) -/
theorem C4_clearCache_forces_retrieval (st : DataManager.State)
    (fileName : String) (fetched : Option Json)
    (hp : fileName ∉ protoNames) :
    (DataManager.load (DataManager.clearCache st) fileName fetched).2.2
      = true ∧
    (DataManager.load (DataManager.clearCache st) fileName fetched).1 =
      (match fetched with
        | some d => d
        | none => DataManager.getDefaultData fileName) := by
  unfold DataManager.load DataManager.clearCache jsGet objectProtoMember
  cases fetched <;> simp [List.lookup, hp]

/-- Witness for C4: `"tasks.json"` collides with no prototype name, so
a cleared-cache load with a failing fetch retrieves afresh. -/
theorem C4_clearCache_witness :
    "tasks.json" ∉ protoNames ∧
    (DataManager.load (DataManager.clearCache
        ⟨[("tasks.json", Json.obj [])], []⟩) "tasks.json" none).2.2
      = true :=
  ⟨by decide,
   (C4_clearCache_forces_retrieval ⟨[("tasks.json", Json.obj [])], []⟩
     "tasks.json" none (by decide)).1⟩

/-- C5: navigating to a registered view sets the current-view pointer to
that name and invokes exactly that module's render exactly once; an
immediately repeated `navigate` to the same name re-renders the same
module once again (idempotent re-render, not a no-op). -/
theorem C5_navigate_registered_renders_once (st : Router.State)
    (name : String) (m : Router.Module)
    (h : st.modules.lookup name = some m) :
    Router.navigate st name =
      ({ st with currentView := some name },
       Router.NavOutcome.ok [Router.RenderAction.rendered m]) ∧
    Router.navigate (Router.navigate st name).1 name =
      ({ st with currentView := some name },
       Router.NavOutcome.ok [Router.RenderAction.rendered m]) := by
  unfold Router.navigate Router.lookupModule
  simp [h]

/-- Witness for C5 at the spec's scenario: register `"dashboard"`, then
navigate to it. -/
theorem C5_navigate_witness :
    (Router.registerModule ⟨none, []⟩ "dashboard" 0).modules.lookup
      "dashboard" = some 0 ∧
    Router.navigate (Router.registerModule ⟨none, []⟩ "dashboard" 0)
      "dashboard" =
      (⟨some "dashboard", [("dashboard", 0)]⟩,
       Router.NavOutcome.ok [Router.RenderAction.rendered 0]) :=
  ⟨rfl, (C5_navigate_registered_renders_once
    (Router.registerModule ⟨none, []⟩ "dashboard" 0) "dashboard" 0 rfl).1⟩

/-- C7: each of the three title-requiring form-save handlers
(`saveTask`, `saveItem`, `saveNewProject`), given an empty title,
alerts synchronously and returns with no `load` or `save` call on the
document store and the store state (cache and durable storage) exactly
as before. -/
theorem C7_empty_title_no_store_calls (st : DataManager.State)
    (itemId : Option String)
    (description status ty content summary course unitNumber documentType
      language : String) (fetched : Option Json) (newId now : String) :
    ManagementModule.saveTask st "" description status fetched newId now
      = some (st, [], true) ∧
    LearningEnvironmentModule.saveItem st itemId "" ty content summary
      course unitNumber documentType language fetched newId now
      = some (st, [], true) ∧
    CreativeStudioModule.saveNewProject st "" description fetched newId now
      = some (st, [], true) :=
  ⟨rfl, rfl, rfl⟩

/-- C9: `load` never consults durable local storage — its result, its
retrieval flag and the cache it leaves behind depend only on the cache
and the fetch outcome (two states agreeing on the cache behave
identically), it never writes `localStorage`, and a value persisted by
`save` is NOT returned by a post-`clearCache` `load` whose fetch fails:
that load returns the default shape instead. -/
theorem C9_load_independent_of_localStore (st1 st2 : DataManager.State)
    (fileName : String) (fetched : Option Json) (v : Json)
    (h : st1.cache = st2.cache) :
    (DataManager.load st1 fileName fetched).1 =
      (DataManager.load st2 fileName fetched).1 ∧
    (DataManager.load st1 fileName fetched).2.2 =
      (DataManager.load st2 fileName fetched).2.2 ∧
    (DataManager.load st1 fileName fetched).2.1.cache =
      (DataManager.load st2 fileName fetched).2.1.cache ∧
    (DataManager.load st1 fileName fetched).2.1.localStore
      = st1.localStore ∧
    (DataManager.load (DataManager.clearCache
        (DataManager.save st1 fileName v).2) fileName none).1 =
      DataManager.getDefaultData fileName := by
  have hlast : (DataManager.load (DataManager.clearCache
      (DataManager.save st1 fileName v).2) fileName none).1 =
      DataManager.getDefaultData fileName := by
    by_cases hp : fileName ∈ protoNames
    · have hp' : fileName = "constructor" ∨ fileName = "hasOwnProperty" ∨
          fileName = "isPrototypeOf" ∨
          fileName = "propertyIsEnumerable" ∨
          fileName = "toLocaleString" ∨ fileName = "toString" ∨
          fileName = "valueOf" ∨ fileName = "__defineGetter__" ∨
          fileName = "__defineSetter__" ∨ fileName = "__lookupGetter__" ∨
          fileName = "__lookupSetter__" ∨ fileName = "__proto__" := by
        simpa [protoNames] using hp
      rcases hp' with rfl | rfl | rfl | rfl | rfl | rfl | rfl | rfl | rfl |
        rfl | rfl | rfl <;> rfl
    · unfold DataManager.load DataManager.clearCache DataManager.save
        DataManager.setKey jsGet objectProtoMember
      simp [List.lookup, hp]
  have hmain :
      (DataManager.load st1 fileName fetched).1 =
        (DataManager.load st2 fileName fetched).1 ∧
      (DataManager.load st1 fileName fetched).2.2 =
        (DataManager.load st2 fileName fetched).2.2 ∧
      (DataManager.load st1 fileName fetched).2.1.cache =
        (DataManager.load st2 fileName fetched).2.1.cache ∧
      (DataManager.load st1 fileName fetched).2.1.localStore
        = st1.localStore := by
    cases hl2 : jsGet st2.cache fileName with
    | none =>
        have hl1 : jsGet st1.cache fileName = none := by rw [h]; exact hl2
        cases fetched <;>
          simp [DataManager.load, DataManager.setKey, hl1, hl2, h]
    | some w =>
        have hl1 : jsGet st1.cache fileName = some w := by rw [h]; exact hl2
        cases hw : w.truthy <;> cases fetched <;>
          simp [DataManager.load, DataManager.setKey, hl1, hl2, hw, h]
  exact ⟨hmain.1, hmain.2.1, hmain.2.2.1, hmain.2.2.2, hlast⟩

/-- Witness for C9: two states differing only in `localStorage` load
identically, and a saved value is lost to a cleared-cache failed-fetch
load, which returns the default. -/
theorem C9_load_witness :
    (DataManager.State.mk [] [("btk_tasks.json", "x")]).cache
      = (DataManager.State.mk [] []).cache ∧
    (DataManager.load ⟨[], [("btk_tasks.json", "x")]⟩ "tasks.json" none).1
      = (DataManager.load ⟨[], []⟩ "tasks.json" none).1 ∧
    (DataManager.load (DataManager.clearCache
        (DataManager.save ⟨[], [("btk_tasks.json", "x")]⟩ "tasks.json"
          (Json.obj [("tasks", Json.arr [Json.str "t"])])).2)
        "tasks.json" none).1
      = DataManager.getDefaultData "tasks.json" := by
  have hthm := C9_load_independent_of_localStore
    ⟨[], [("btk_tasks.json", "x")]⟩ ⟨[], []⟩ "tasks.json" none
    (Json.obj [("tasks", Json.arr [Json.str "t"])]) rfl
  exact ⟨rfl, hthm.1, hthm.2.2.2.2⟩

/-- C10: the cache test in `load` is a truthiness test, not a
key-presence test: a cached falsy value (`null`, `false`, `0`, `""`) is
treated as a miss and a retrieval is performed, while a cached truthy
value short-circuits the fetch entirely. -/
theorem C10_cache_test_truthiness (st : DataManager.State)
    (fileName : String) (v : Json) (fetched : Option Json)
    (h : st.cache.lookup fileName = some v) :
    (v.truthy = false →
      (DataManager.load st fileName fetched).2.2 = true ∧
      (DataManager.load st fileName fetched).1 =
        (match fetched with
          | some d => d
          | none => DataManager.getDefaultData fileName)) ∧
    (v.truthy = true →
      DataManager.load st fileName fetched = (v, st, false)) := by
  constructor
  · intro hv
    unfold DataManager.load jsGet
    cases fetched <;> simp [h, hv]
  · intro hv
    unfold DataManager.load jsGet
    simp [h, hv]

/-- Witness for C10: a cached `null` under `"x"` is present but falsy,
so `load("x")` performs a retrieval. -/
theorem C10_cache_test_witness :
    (DataManager.State.mk [("x", Json.null)] []).cache.lookup "x"
      = some Json.null ∧
    Json.truthy Json.null = false ∧
    (DataManager.load ⟨[("x", Json.null)], []⟩ "x" none).2.2 = true :=
  ⟨rfl, rfl,
   ((C10_cache_test_truthiness ⟨[("x", Json.null)], []⟩ "x" Json.null none
      rfl).1 rfl).1⟩
